import Mathlib

/-!
Credit scoring engine (`server/src/services/scoringEngine.js`).

A shallow embedding of the static methods of `ScoringEngine`.

Modelling conventions.

* JavaScript numbers are modelled exactly: integer-valued scores are `ℤ`,
  monetary amounts, balances, ratios and the weighted raw score are `ℚ`.
  IEEE-754 rounding of the intermediate products is not modelled.
* `Math.round x` is `⌊x + 1/2⌋` (ties go up); `Math.floor(length / 2)` is
  division of natural numbers.
* A `Date` is its time value, the number of milliseconds since the epoch, as
  an `ℤ`.  The calendar functions follow ECMA-262 (`Day`, `TimeWithinDay`,
  `YearFromTime`, `MonthFromTime`, `DateFromTime`, `MakeDay`, `MakeDate`).
* `new Date()` reads the host clock.  The reading is passed explicitly as a
  `Clock`: the instant `now` and the local time zone adjustment of the host.
* A JavaScript object used as a string-keyed map is an association list in
  insertion order (the order `Object.values` enumerates non-index keys).
* `Math.sqrt` of a rational need not be rational, so the value returned by
  `calculateConsistency` is kept symbolically (`Consistency`), with an exact
  decision procedure for the threshold tests that the engine performs on it.
-/

namespace ScoringEngine

/-! ## Time values -/

/-- Milliseconds per day, `msPerDay` of ECMA-262. -/
def msPerDay : ℤ := 86400000

/-- The day number of a time value: `Day(t) = floor(t / msPerDay)`. -/
def Day (t : ℤ) : ℤ := t / msPerDay

/-- The milliseconds elapsed within the day: `TimeWithinDay(t) = t modulo msPerDay`. -/
def TimeWithinDay (t : ℤ) : ℤ := t % msPerDay

/-- The proleptic Gregorian date `(year, month, day)` of a day number, with
`month` in `1..12`; day `0` is 1970-01-01. -/
def civilFromDays (z : ℤ) : ℤ × ℤ × ℤ :=
  let z := z + 719468
  let era := z / 146097
  let doe := z - era * 146097
  let yoe := (doe - doe / 1460 + doe / 36524 - doe / 146096) / 365
  let y := yoe + era * 400
  let doy := doe - (365 * yoe + yoe / 4 - yoe / 100)
  let mp := (5 * doy + 2) / 153
  let d := doy - (153 * mp + 2) / 5 + 1
  let m := if mp < 10 then mp + 3 else mp - 9
  (if m ≤ 2 then y + 1 else y, m, d)

/-- The day number of a proleptic Gregorian date, `m` in `1..12`. -/
def daysFromCivil (y m d : ℤ) : ℤ :=
  let y := if m ≤ 2 then y - 1 else y
  let era := y / 400
  let yoe := y - era * 400
  let doy := (153 * (if m > 2 then m - 3 else m + 9) + 2) / 5 + d - 1
  let doe := yoe * 365 + yoe / 4 - yoe / 100 + doy
  era * 146097 + doe - 719468

/-- The year of a time value: `YearFromTime(t)`. -/
def YearFromTime (t : ℤ) : ℤ := (civilFromDays (Day t)).1

/-- The month of a time value, `0` for January: `MonthFromTime(t)`. -/
def MonthFromTime (t : ℤ) : ℤ := (civilFromDays (Day t)).2.1 - 1

/-- The day of the month of a time value, from `1`: `DateFromTime(t)`. -/
def DateFromTime (t : ℤ) : ℤ := (civilFromDays (Day t)).2.2

/-- The day number of the `date`-th day of month `month` (any integer, `0` for
January of `year`) : `MakeDay(year, month, date)`. -/
def MakeDay (year month date : ℤ) : ℤ :=
  let ym := year + month / 12
  let mn := month % 12
  daysFromCivil ym (mn + 1) 1 + date - 1

/-- The time value of a day number and a time within the day: `MakeDate(day, time)`. -/
def MakeDate (day time : ℤ) : ℤ := day * msPerDay + time

/-- A reading of the host clock: what `new Date()` and the local-time getters
and setters of `Date` consult. -/
structure Clock where
  /-- the time value of `new Date()` -/
  now : ℤ
  /-- the local time zone adjustment in milliseconds at a UTC time value -/
  offsetAtUTC : ℤ → ℤ
  /-- the local time zone adjustment in milliseconds at a local time value -/
  offsetAtLocal : ℤ → ℤ

/-- The local time of a UTC time value: `LocalTime(t)`. -/
def LocalTime (c : Clock) (t : ℤ) : ℤ := t + c.offsetAtUTC t

/-- The UTC time value of a local time: `UTC(t)`. -/
def UTC (c : Clock) (t : ℤ) : ℤ := t - c.offsetAtLocal t

/-- The local month of a date: `Date.prototype.getMonth`. -/
def getMonth (c : Clock) (d : ℤ) : ℤ := MonthFromTime (LocalTime c d)

/-- The date with the local month replaced by `month`, keeping the local year,
day of the month and time of day: `Date.prototype.setMonth`. -/
def setMonth (c : Clock) (d : ℤ) (month : ℤ) : ℤ :=
  let t := LocalTime c d
  let newDate := MakeDate (MakeDay (YearFromTime t) month (DateFromTime t)) (TimeWithinDay t)
  UTC c newDate

/-- The first seven characters of `Date.prototype.toISOString`, as a pair: the
UTC year and month `1..12` of `"YYYY-MM"` for the years `0..9999`; for any
other year the ISO string is `"±YYYYYY-MM-…"`, whose first seven characters
are the signed year alone, written here with month `0`. -/
def isoMonth (d : ℤ) : ℤ × ℤ :=
  let y := YearFromTime d
  if 0 ≤ y ∧ y ≤ 9999 then (y, MonthFromTime d + 1) else (y, 0)

/-! ## Data model -/

/-- A ledger entry as the engine reads it. -/
structure Transaction where
  /-- time value of `date` -/
  date : ℤ
  /-- the `type` field, `"credit"` or `"debit"` -/
  type_ : String
  amount : ℚ
  category : String
  /-- account balance after the transaction -/
  balance : ℚ
  deriving DecidableEq

/-- The account profile; `accountAge` may be absent. -/
structure User where
  accountAge : Option ℤ
  deriving DecidableEq

/-- The object `scores` built by `calculateScore`. -/
structure Scores where
  transaction : ℤ
  cashFlow : ℤ
  stability : ℤ
  behavior : ℤ
  deriving DecidableEq

/-- The object returned by `calculateScore`. -/
structure CreditScoreResult where
  score : ℤ
  grade : String
  riskLevel : String
  breakdown : Scores
  recommendations : List String
  deriving DecidableEq

/-- The type of the static table `WEIGHTS`. -/
structure Weights where
  transaction : ℚ
  cashFlow : ℚ
  stability : ℚ
  behavior : ℚ

/-- Score weights (total = 100%). -/
def WEIGHTS : Weights :=
  { transaction := 3 / 10, cashFlow := 35 / 100, stability := 2 / 10, behavior := 15 / 100 }

/-- JavaScript `Math.round`: the nearest integer, ties towards `+∞`. -/
def Math.round (x : ℚ) : ℤ := ⌊x + 1 / 2⌋

/-- JavaScript `x || 0` on an optional number: an absent (or zero) value is `0`. -/
def orZero (x : Option ℤ) : ℤ := x.getD 0

/-! ## Helpers of the engine -/

/-- The date `sixMonthsAgo` of `filterLast6Months`: `new Date()` after
`setMonth(getMonth() - 6)`, in the local time of the host. -/
def sixMonthsAgo (c : Clock) : ℤ := setMonth c c.now (getMonth c c.now - 6)

/-- Model of `filterLast6Months`: the cut-off is `new Date()` with its month set
back by six, and the transactions dated at or after it are kept. -/
def filterLast6Months (c : Clock) (transactions : List Transaction) : List Transaction :=
  let sixMonthsAgo := sixMonthsAgo c
  transactions.filter (fun t => decide (t.date ≥ sixMonthsAgo))

/-- Model of `calculateVolumeGrowth`. -/
def calculateVolumeGrowth (transactions : List Transaction) : ℚ :=
  let half := if transactions.length / 2 = 0 then 1 else transactions.length / 2
  let first := transactions.take half
  let last := transactions.drop half
  let vol1 := first.foldl (fun s t => s + t.amount) 0
  let vol2 := last.foldl (fun s t => s + t.amount) 0
  (vol2 - vol1) / max vol1 1

/-- One step of the reducer of `groupByMonth`: push `t` on the array stored
under `month`, creating the entry (last in key order) when it is missing. -/
def pushMonth (month : ℤ × ℤ) (t : Transaction) :
    List ((ℤ × ℤ) × List Transaction) → List ((ℤ × ℤ) × List Transaction)
  | [] => [(month, [t])]
  | (k, arr) :: rest =>
      if k = month then (k, arr ++ [t]) :: rest else (k, arr) :: pushMonth month t rest

/-- Model of `groupByMonth`. -/
def groupByMonth (transactions : List Transaction) : List ((ℤ × ℤ) × List Transaction) :=
  transactions.foldl (fun acc t => pushMonth (isoMonth t.date) t acc) []

/-- The result of `Object.values` on a map. -/
def values {κ α : Type} (obj : List (κ × α)) : List α := obj.map Prod.snd

/-- Model of `countNegativeBalanceMonths`. -/
def countNegativeBalanceMonths (transactions : List Transaction) : ℕ :=
  let monthlyBalances := groupByMonth transactions
  ((values monthlyBalances).filter
    (fun monthData => monthData.any (fun t => decide (t.balance < 0)))).length

/-- The number returned by `calculateConsistency`: either a rational constant or
the value `1 - Math.sqrt(variance) / denom`. -/
inductive Consistency where
  | const (q : ℚ)
  | oneMinusSqrtOver (variance denom : ℚ)
  deriving DecidableEq

/-- The test `x >= θ` on a consistency value.  For `1 - √v / a` with `0 ≤ v` and
`0 < a` it is `√v ≤ (1 - θ) a`, that is `0 ≤ (1 - θ) a` and `v ≤ ((1 - θ) a)²`. -/
def Consistency.ge (x : Consistency) (θ : ℚ) : Prop :=
  match x with
  | .const q => q ≥ θ
  | .oneMinusSqrtOver v a => 0 ≤ (1 - θ) * a ∧ v ≤ ((1 - θ) * a) ^ 2

instance Consistency.decidableGe : (x : Consistency) → (θ : ℚ) → Decidable (x.ge θ)
  | .const q, θ => inferInstanceAs (Decidable (q ≥ θ))
  | .oneMinusSqrtOver v a, θ =>
      inferInstanceAs (Decidable (0 ≤ (1 - θ) * a ∧ v ≤ ((1 - θ) * a) ^ 2))

/-- Model of `calculateConsistency`. -/
def calculateConsistency {κ : Type} (monthlyData : List (κ × List Transaction)) : Consistency :=
  let counts := (values monthlyData).map (fun arr => arr.length)
  if counts.length = 0 then .const 0
  else
    let avg : ℚ := (counts.foldl (fun a b => a + b) 0 : ℕ) / (counts.length : ℚ)
    let variance : ℚ :=
      counts.foldl (fun (sum : ℚ) (c : ℕ) => sum + ((c : ℚ) - avg) ^ 2) 0
        / (counts.length : ℚ)
    .oneMinusSqrtOver variance (if avg = 0 then 1 else avg)

/-- Model of `isLatePayment`: a placeholder that reports no late payment. -/
def isLatePayment (_transaction : Transaction) : Bool := false

/-! ## Component scorers -/

/-- Model of `scoreTransactions`. -/
def scoreTransactions (transactions : List Transaction) : ℤ :=
  let score : ℤ := 0
  let avgPerMonth : ℚ := (transactions.length : ℚ) / 6
  let score :=
    if avgPerMonth ≥ 50 then score + 40
    else if avgPerMonth ≥ 30 then score + 30
    else if avgPerMonth ≥ 15 then score + 20
    else if avgPerMonth ≥ 5 then score + 10
    else score
  let volumeGrowth := calculateVolumeGrowth transactions
  let score :=
    if volumeGrowth > 2 / 10 then score + 30
    else if volumeGrowth > 1 / 10 then score + 20
    else if volumeGrowth > 0 then score + 10
    else score
  let categories := (transactions.map (fun t => t.category)).dedup.length
  let score :=
    if categories ≥ 5 then score + 30
    else if categories ≥ 3 then score + 20
    else if categories ≥ 2 then score + 10
    else score
  min score 100

/-- Model of `scoreCashFlow`. -/
def scoreCashFlow (transactions : List Transaction) : ℤ :=
  let score : ℤ := 0
  let credits := transactions.filter (fun t => t.type_ = "credit")
  let debits := transactions.filter (fun t => t.type_ = "debit")
  let totalIncome := credits.foldl (fun s t => s + t.amount) 0
  let totalExpenses := debits.foldl (fun s t => s + t.amount) 0
  let ratio : ℚ := totalIncome / max totalExpenses 1
  let score :=
    if ratio ≥ 15 / 10 then score + 50
    else if ratio ≥ 13 / 10 then score + 40
    else if ratio ≥ 115 / 100 then score + 30
    else if ratio ≥ 1 then score + 20
    else score
  let negativeBalanceMonths := countNegativeBalanceMonths transactions
  let score :=
    if negativeBalanceMonths = 0 then score + 30
    else if negativeBalanceMonths ≤ 1 then score + 15
    else score
  let avgMonthlyIncome : ℚ := totalIncome / 6
  let score :=
    if avgMonthlyIncome ≥ 500000 then score + 20
    else if avgMonthlyIncome ≥ 200000 then score + 15
    else if avgMonthlyIncome ≥ 100000 then score + 10
    else if avgMonthlyIncome ≥ 50000 then score + 5
    else score
  min score 100

/-- Model of `scoreStability`. -/
def scoreStability (user : User) (transactions : List Transaction) : ℤ :=
  let score : ℤ := 0
  let score :=
    if orZero user.accountAge ≥ 24 then score + 40
    else if orZero user.accountAge ≥ 12 then score + 30
    else if orZero user.accountAge ≥ 6 then score + 20
    else if orZero user.accountAge ≥ 3 then score + 10
    else score
  let monthlyTransactions := groupByMonth transactions
  let consistency := calculateConsistency monthlyTransactions
  let score :=
    if consistency.ge (8 / 10) then score + 60
    else if consistency.ge (6 / 10) then score + 40
    else if consistency.ge (4 / 10) then score + 20
    else score
  min score 100

/-- Model of `scoreBehavior`. -/
def scoreBehavior (transactions : List Transaction) : ℤ :=
  let score : ℤ := 100
  let overdrafts := (transactions.filter (fun t => decide (t.balance < 0))).length
  let score :=
    if overdrafts > 5 then score - 30
    else if overdrafts > 2 then score - 15
    else if overdrafts > 0 then score - 5
    else score
  let latePayments :=
    (transactions.filter (fun t => t.category = "loan_repayment" && isLatePayment t)).length
  let score :=
    if latePayments > 3 then score - 40
    else if latePayments > 1 then score - 20
    else if latePayments > 0 then score - 10
    else score
  let savingsTransactions :=
    transactions.filter (fun t => t.category = "savings" || t.category = "investment")
  let score :=
    if savingsTransactions.length ≥ 10 then score + 30
    else if savingsTransactions.length ≥ 5 then score + 15
    else score
  max 0 (min score 100)

/-! ## Classification, recommendations and the entry point -/

/-- Model of `calculateGrade`. -/
def calculateGrade (score : ℤ) : String :=
  if score ≥ 800 then "A+"
  else if score ≥ 750 then "A"
  else if score ≥ 700 then "B+"
  else if score ≥ 650 then "B"
  else if score ≥ 600 then "C+"
  else if score ≥ 550 then "C"
  else "D"

/-- Model of `generateRecommendations`; `tips.push x` is `tips ++ [x]` and
`tips.slice(0, 5)` is `tips.take 5`.  The third argument is not read. -/
def generateRecommendations (scores : Scores) (user : User)
    (_transactions : List Transaction) : List String :=
  let tips : List String := []
  let tips :=
    if scores.transaction < 70 then
      (tips ++ ["Increase transaction frequency - aim for 30+ transactions monthly"])
        ++ ["Diversify income sources across different categories"]
    else tips
  let tips :=
    if scores.cashFlow < 70 then
      (tips ++ ["Improve profit margins - aim for 30%+ income over expenses"])
        ++ ["Maintain positive account balance consistently"]
    else tips
  let tips :=
    if scores.stability < 70 then
      (tips ++ ["Build longer account history - consistency over 12+ months helps"])
        ++ ["Maintain regular monthly transaction patterns"]
    else tips
  let tips :=
    if scores.behavior < 70 then
      (tips ++ ["Avoid overdrafts and negative balances"])
        ++ ["Start saving 10-15% of monthly income"]
    else tips
  let tips :=
    if orZero user.accountAge < 12 then
      tips ++ ["Continue building account history - scores improve after 12 months"]
    else tips
  tips.take 5

/-- The weighted total `rawScore` of `calculateScore`, on the 0-100 scale. -/
def rawScore (transaction cashFlow stability behavior : ℚ) : ℚ :=
  transaction * WEIGHTS.transaction + cashFlow * WEIGHTS.cashFlow
    + stability * WEIGHTS.stability + behavior * WEIGHTS.behavior

/-- The value `finalScore` of `calculateScore`: the raw score mapped to 300-850. -/
def finalScore (rawScore : ℚ) : ℤ := Math.round (300 + rawScore / 100 * 550)

/-- The risk classification of `calculateScore`. -/
def riskLevel (finalScore : ℤ) : String :=
  if finalScore ≥ 700 then "Low"
  else if finalScore ≥ 600 then "Medium"
  else "High"

/-- Model of `calculateScore`, given the clock that `filterLast6Months` reads. -/
def calculateScore (c : Clock) (user : User) (transactions : List Transaction) :
    CreditScoreResult :=
  let last6Months := filterLast6Months c transactions
  let scores : Scores :=
    { transaction := scoreTransactions last6Months
      cashFlow := scoreCashFlow last6Months
      stability := scoreStability user last6Months
      behavior := scoreBehavior last6Months }
  let finalScore :=
    finalScore (rawScore scores.transaction scores.cashFlow scores.stability scores.behavior)
  let grade := calculateGrade finalScore
  let recommendations := generateRecommendations scores user last6Months
  { score := finalScore
    grade := grade
    riskLevel := riskLevel finalScore
    breakdown := scores
    recommendations := recommendations }

/-! ## Definitions used to state the properties -/

/-- A host clock running on UTC, reading `now`. -/
def utcClock (now : ℤ) : Clock := ⟨now, fun _ => 0, fun _ => 0⟩

/-- The list of tips of the fixed rule order, before truncation: two tips for
`transaction < 70`, two for `cashFlow < 70`, two for `stability < 70`, two for
`behavior < 70`, one for an account age below 12. -/
def ruleTips (scores : Scores) (user : User) : List String :=
  (if scores.transaction < 70 then
      ["Increase transaction frequency - aim for 30+ transactions monthly",
       "Diversify income sources across different categories"] else [])
  ++ (if scores.cashFlow < 70 then
      ["Improve profit margins - aim for 30%+ income over expenses",
       "Maintain positive account balance consistently"] else [])
  ++ (if scores.stability < 70 then
      ["Build longer account history - consistency over 12+ months helps",
       "Maintain regular monthly transaction patterns"] else [])
  ++ (if scores.behavior < 70 then
      ["Avoid overdrafts and negative balances",
       "Start saving 10-15% of monthly income"] else [])
  ++ (if orZero user.accountAge < 12 then
      ["Continue building account history - scores improve after 12 months"] else [])

/-- The overdraft penalty of the behaviour score, by overdraft count:
30 above 5, 15 above 2, 5 above 0, else 0. -/
def overdraftPenalty (count : ℕ) : ℤ :=
  if count > 5 then 30 else if count > 2 then 15 else if count > 0 then 5 else 0

/-- The savings bonus of the behaviour score, by count of savings or investment
transactions: 30 from 10, 15 from 5, else 0. -/
def savingsBonus (count : ℕ) : ℤ :=
  if count ≥ 10 then 30 else if count ≥ 5 then 15 else 0

/-- A ledger with one overdraft and three savings or investment transactions. -/
def scenarioC : List Transaction :=
  [⟨0, "credit", 1000, "sales", 500⟩, ⟨1, "debit", 700, "supplies", -200⟩,
   ⟨2, "debit", 10, "savings", 90⟩, ⟨3, "debit", 10, "savings", 80⟩,
   ⟨4, "debit", 10, "investment", 70⟩]

/-- The value `x` clamped into `[lo, hi]`. -/
def clamp (x lo hi : ℤ) : ℤ := max lo (min x hi)

/-- The split index of the volume growth: `floor(n / 2)`, taken as 1 when that is 0. -/
def splitIndex (n : ℕ) : ℕ := if n / 2 = 0 then 1 else n / 2

/-- The volume growth of a ledger: (sum of the amounts from index `h` on, minus
the sum of the amounts before index `h`) over `max(sum before index h, 1)`, with
`h` the split index. -/
def volumeGrowth (transactions : List Transaction) : ℚ :=
  (((transactions.drop (splitIndex transactions.length)).map (fun t => t.amount)).sum
      - ((transactions.take (splitIndex transactions.length)).map (fun t => t.amount)).sum)
    / max ((transactions.take (splitIndex transactions.length)).map (fun t => t.amount)).sum 1

/-- The months of a ledger, as keyed by `groupByMonth`, in order of first
occurrence. -/
def monthsInOrder (transactions : List Transaction) : List (ℤ × ℤ) :=
  ((transactions.map (fun t => isoMonth t.date)).reverse.dedup).reverse

/-- The transactions of a ledger that fall in the month `k`, in ledger order. -/
def inMonth (transactions : List Transaction) (k : ℤ × ℤ) : List Transaction :=
  transactions.filter (fun t => decide (isoMonth t.date = k))

/-- The number of distinct months in which at least one transaction has a
negative balance. -/
def negativeBalanceMonths (transactions : List Transaction) : ℕ :=
  ((transactions.filter (fun t => decide (t.balance < 0))).map
    (fun t => isoMonth t.date)).toFinset.card

/-- The sum of the amounts of the credit transactions. -/
def totalIncome (transactions : List Transaction) : ℚ :=
  ((transactions.filter (fun t => t.type_ = "credit")).map (fun t => t.amount)).sum

/-- The sum of the amounts of the debit transactions. -/
def totalExpenses (transactions : List Transaction) : ℚ :=
  ((transactions.filter (fun t => t.type_ = "debit")).map (fun t => t.amount)).sum

/-- The real number that a consistency value stands for. -/
def Consistency.denotes (x : Consistency) (r : ℝ) : Prop :=
  match x with
  | .const q => r = (q : ℝ)
  | .oneMinusSqrtOver v a => r = 1 - Real.sqrt (v : ℝ) / (a : ℝ)

/-- A ledger spread evenly over two months: two transactions at the end of July
2024 and two at the end of August 2024. -/
def evenLedger : List Transaction :=
  [⟨1722427200000, "credit", 1400, "sales", 1400⟩, ⟨1722427200001, "debit", 1000, "rent", 400⟩,
   ⟨1725105600000, "credit", 1400, "sales", 1800⟩, ⟨1725105600001, "debit", 1000, "rent", 800⟩]

/-! ## Bounds on the component scores and on the final score -/

theorem scoreTransactions_bounds (transactions : List Transaction) :
    0 ≤ scoreTransactions transactions ∧ scoreTransactions transactions ≤ 100 := by
  unfold scoreTransactions
  lift_lets
  intro s0 avgPerMonth s1 volumeGrowth s2 categories s3
  have h0 : 0 ≤ s0 := le_refl _
  clear_value s0
  have h1 : 0 ≤ s1 := by simp only [s1]; split_ifs <;> omega
  clear_value s1
  have h2 : 0 ≤ s2 := by simp only [s2]; split_ifs <;> omega
  clear_value s2
  have h3 : 0 ≤ s3 := by simp only [s3]; split_ifs <;> omega
  exact ⟨le_min h3 (by norm_num), min_le_right _ _⟩

theorem scoreCashFlow_bounds (transactions : List Transaction) :
    0 ≤ scoreCashFlow transactions ∧ scoreCashFlow transactions ≤ 100 := by
  unfold scoreCashFlow
  lift_lets
  intro s0 credits debits totalIncome totalExpenses r s1 negativeBalanceMonths s2
    avgMonthlyIncome s3
  have h0 : 0 ≤ s0 := le_refl _
  clear_value s0
  have h1 : 0 ≤ s1 := by simp only [s1]; split_ifs <;> omega
  clear_value s1
  have h2 : 0 ≤ s2 := by simp only [s2]; split_ifs <;> omega
  clear_value s2
  have h3 : 0 ≤ s3 := by simp only [s3]; split_ifs <;> omega
  exact ⟨le_min h3 (by norm_num), min_le_right _ _⟩

theorem scoreStability_bounds (user : User) (transactions : List Transaction) :
    0 ≤ scoreStability user transactions ∧ scoreStability user transactions ≤ 100 := by
  unfold scoreStability
  lift_lets
  intro s0 s1 monthlyTransactions consistency s2
  have h0 : 0 ≤ s0 := le_refl _
  clear_value s0
  have h1 : 0 ≤ s1 := by simp only [s1]; split_ifs <;> omega
  clear_value s1
  have h2 : 0 ≤ s2 := by simp only [s2]; split_ifs <;> omega
  exact ⟨le_min h2 (by norm_num), min_le_right _ _⟩

theorem scoreBehavior_bounds (transactions : List Transaction) :
    0 ≤ scoreBehavior transactions ∧ scoreBehavior transactions ≤ 100 := by
  unfold scoreBehavior
  dsimp only
  exact ⟨le_max_left _ _, max_le (by norm_num) (min_le_right _ _)⟩

theorem rawScore_bounds (t c s b : ℚ) (ht : 0 ≤ t ∧ t ≤ 100) (hc : 0 ≤ c ∧ c ≤ 100)
    (hs : 0 ≤ s ∧ s ≤ 100) (hb : 0 ≤ b ∧ b ≤ 100) :
    0 ≤ rawScore t c s b ∧ rawScore t c s b ≤ 100 := by
  unfold rawScore WEIGHTS
  dsimp only
  constructor <;> linarith [ht.1, ht.2, hc.1, hc.2, hs.1, hs.2, hb.1, hb.2]

theorem finalScore_bounds (raw : ℚ) (h0 : 0 ≤ raw) (h1 : raw ≤ 100) :
    300 ≤ finalScore raw ∧ finalScore raw ≤ 850 := by
  unfold finalScore Math.round
  constructor
  · apply Int.le_floor.mpr
    push_cast
    linarith
  · have h : ⌊300 + raw / 100 * 550 + 1 / 2⌋ < 851 := by
      apply Int.floor_lt.mpr
      push_cast
      linarith
    omega

/-! ## The score and its components stay in range -/

/-- C1: for every user profile and every transaction list, the score returned by
`calculateScore` is an integer with `300 ≤ score ≤ 850`. -/
theorem calculateScore_score_range (c : Clock) (user : User)
    (transactions : List Transaction) :
    300 ≤ (calculateScore c user transactions).score
      ∧ (calculateScore c user transactions).score ≤ 850 := by
  unfold calculateScore
  dsimp only
  have ht := scoreTransactions_bounds (filterLast6Months c transactions)
  have hc := scoreCashFlow_bounds (filterLast6Months c transactions)
  have hs := scoreStability_bounds user (filterLast6Months c transactions)
  have hb := scoreBehavior_bounds (filterLast6Months c transactions)
  have hraw := rawScore_bounds (scoreTransactions (filterLast6Months c transactions))
    (scoreCashFlow (filterLast6Months c transactions))
    (scoreStability user (filterLast6Months c transactions))
    (scoreBehavior (filterLast6Months c transactions))
    ⟨by exact_mod_cast ht.1, by exact_mod_cast ht.2⟩
    ⟨by exact_mod_cast hc.1, by exact_mod_cast hc.2⟩
    ⟨by exact_mod_cast hs.1, by exact_mod_cast hs.2⟩
    ⟨by exact_mod_cast hb.1, by exact_mod_cast hb.2⟩
  exact finalScore_bounds _ hraw.1 hraw.2

/-- C2: each of `scoreTransactions`, `scoreCashFlow`, `scoreStability` and
`scoreBehavior` returns an integer in `[0, 100]`, so every field of the breakdown
returned by `calculateScore` lies in `[0, 100]`. -/
theorem component_scores_range (c : Clock) (user : User) (transactions : List Transaction) :
    (0 ≤ scoreTransactions transactions ∧ scoreTransactions transactions ≤ 100)
      ∧ (0 ≤ scoreCashFlow transactions ∧ scoreCashFlow transactions ≤ 100)
      ∧ (0 ≤ scoreStability user transactions ∧ scoreStability user transactions ≤ 100)
      ∧ (0 ≤ scoreBehavior transactions ∧ scoreBehavior transactions ≤ 100)
      ∧ (0 ≤ (calculateScore c user transactions).breakdown.transaction
          ∧ (calculateScore c user transactions).breakdown.transaction ≤ 100)
      ∧ (0 ≤ (calculateScore c user transactions).breakdown.cashFlow
          ∧ (calculateScore c user transactions).breakdown.cashFlow ≤ 100)
      ∧ (0 ≤ (calculateScore c user transactions).breakdown.stability
          ∧ (calculateScore c user transactions).breakdown.stability ≤ 100)
      ∧ (0 ≤ (calculateScore c user transactions).breakdown.behavior
          ∧ (calculateScore c user transactions).breakdown.behavior ≤ 100) :=
  ⟨scoreTransactions_bounds _, scoreCashFlow_bounds _, scoreStability_bounds _ _,
    scoreBehavior_bounds _, scoreTransactions_bounds _, scoreCashFlow_bounds _,
    scoreStability_bounds _ _, scoreBehavior_bounds _⟩

/-! ## The empty window -/

theorem scoreTransactions_nil : scoreTransactions [] = 0 := by
  simp [scoreTransactions, calculateVolumeGrowth]
  norm_num

theorem scoreCashFlow_nil : scoreCashFlow [] = 30 := by
  simp [scoreCashFlow, countNegativeBalanceMonths, groupByMonth, values]
  norm_num

theorem scoreBehavior_nil : scoreBehavior [] = 100 := by
  simp [scoreBehavior]

theorem scoreStability_nil (user : User) :
    scoreStability user [] =
      if orZero user.accountAge ≥ 24 then 40
      else if orZero user.accountAge ≥ 12 then 30
      else if orZero user.accountAge ≥ 6 then 20
      else if orZero user.accountAge ≥ 3 then 10
      else 0 := by
  simp only [scoreStability, groupByMonth, calculateConsistency, values, List.foldl_nil,
    List.map_nil, List.length_nil, if_true, Consistency.ge]
  norm_num
  split_ifs <;> norm_num

theorem finalScore_empty_window (stability : ℤ) (k : ℤ) (hk : stability = 10 * k) :
    finalScore (rawScore 0 30 stability 100) = 440 + 11 * k := by
  subst hk
  unfold finalScore Math.round rawScore WEIGHTS
  rw [Int.floor_eq_iff]
  push_cast
  constructor <;> linarith

/-- C3 (as stated, refuted): with no transaction at all, and a profile without
`accountAge`, `calculateScore` returns the breakdown `0, 30, 0, 100` and the score
`440`; the four components are not all `0` and the score is not `300`. -/
theorem calculateScore_empty_not_all_zero :
    filterLast6Months (utcClock 0) [] = []
      ∧ (calculateScore (utcClock 0) ⟨none⟩ []).breakdown = ⟨0, 30, 0, 100⟩
      ∧ (calculateScore (utcClock 0) ⟨none⟩ []).score = 440
      ∧ ¬ ((calculateScore (utcClock 0) ⟨none⟩ []).breakdown = ⟨0, 0, 0, 0⟩
            ∧ (calculateScore (utcClock 0) ⟨none⟩ []).score = 300
            ∧ (calculateScore (utcClock 0) ⟨none⟩ []).grade = "D"
            ∧ (calculateScore (utcClock 0) ⟨none⟩ []).riskLevel = "High") := by
  have hf : filterLast6Months (utcClock 0) [] = [] := rfl
  have hb : (calculateScore (utcClock 0) ⟨none⟩ []).breakdown = ⟨0, 30, 0, 100⟩ := by
    simp only [calculateScore, hf, scoreTransactions_nil, scoreCashFlow_nil,
      scoreBehavior_nil, scoreStability_nil, orZero, Option.getD_none]
    norm_num
  have hs : (calculateScore (utcClock 0) ⟨none⟩ []).score = 440 := by
    have h := finalScore_empty_window 0 0 (by norm_num)
    simp only [calculateScore, hf, scoreTransactions_nil, scoreCashFlow_nil,
      scoreBehavior_nil, scoreStability_nil, orZero, Option.getD_none]
    norm_num
    simpa using h
  refine ⟨hf, hb, hs, ?_⟩
  rintro ⟨h1, -, -, -⟩
  rw [hb] at h1
  exact absurd h1 (by decide)

/-- C3 (amended): when no transaction falls inside the 6-month window (in
particular when the list is empty), `calculateScore` returns the breakdown
`transaction = 0`, `cashFlow = 30` (the award for zero negative-balance months),
`stability =` the account-age award (`40/30/20/10/0` for an account age
`≥ 24 / ≥ 12 / ≥ 6 / ≥ 3 /` below) and `behavior = 100`; the score is
`440 + 1.1 × stability`, so it lies in `[440, 484]`; the grade is `"D"` and the risk
level is `"High"`. -/
theorem calculateScore_empty_window (c : Clock) (user : User)
    (transactions : List Transaction) (h : filterLast6Months c transactions = []) :
    (calculateScore c user transactions).breakdown.transaction = 0
      ∧ (calculateScore c user transactions).breakdown.cashFlow = 30
      ∧ (calculateScore c user transactions).breakdown.stability =
          (if orZero user.accountAge ≥ 24 then 40
           else if orZero user.accountAge ≥ 12 then 30
           else if orZero user.accountAge ≥ 6 then 20
           else if orZero user.accountAge ≥ 3 then 10
           else 0)
      ∧ (calculateScore c user transactions).breakdown.behavior = 100
      ∧ 10 * (calculateScore c user transactions).score =
          4400 + 11 * (calculateScore c user transactions).breakdown.stability
      ∧ 440 ≤ (calculateScore c user transactions).score
      ∧ (calculateScore c user transactions).score ≤ 484
      ∧ (calculateScore c user transactions).grade = "D"
      ∧ (calculateScore c user transactions).riskLevel = "High" := by
  have hstab : ∃ k : ℤ, 0 ≤ k ∧ k ≤ 4 ∧ scoreStability user [] = 10 * k := by
    rw [scoreStability_nil]
    split_ifs
    · exact ⟨4, by norm_num, by norm_num, by norm_num⟩
    · exact ⟨3, by norm_num, by norm_num, by norm_num⟩
    · exact ⟨2, by norm_num, by norm_num, by norm_num⟩
    · exact ⟨1, by norm_num, by norm_num, by norm_num⟩
    · exact ⟨0, by norm_num, by norm_num, by norm_num⟩
  obtain ⟨k, hk0, hk4, hk⟩ := hstab
  have hscore : (calculateScore c user transactions).score = 440 + 11 * k := by
    have h2 := finalScore_empty_window (scoreStability user []) k hk
    simp only [calculateScore, h, scoreTransactions_nil, scoreCashFlow_nil,
      scoreBehavior_nil]
    simpa using h2
  have hstab2 : (calculateScore c user transactions).breakdown.stability
      = scoreStability user [] := by
    simp only [calculateScore, h]
  refine ⟨?_, ?_, ?_, ?_, ?_, ?_, ?_, ?_, ?_⟩
  · simp only [calculateScore, h, scoreTransactions_nil]
  · simp only [calculateScore, h, scoreCashFlow_nil]
  · rw [hstab2, scoreStability_nil]
  · simp only [calculateScore, h, scoreBehavior_nil]
  · rw [hstab2, hscore, hk]; ring
  · omega
  · omega
  · have hg : (calculateScore c user transactions).grade
        = calculateGrade (calculateScore c user transactions).score := rfl
    rw [hg, hscore]
    unfold calculateGrade
    split_ifs <;> first | rfl | omega
  · have hr : (calculateScore c user transactions).riskLevel
        = riskLevel (calculateScore c user transactions).score := rfl
    rw [hr, hscore]
    unfold riskLevel
    split_ifs <;> first | rfl | omega

theorem calculateScore_empty_window_witness :
    filterLast6Months (utcClock 1725105600000) [] = []
      ∧ (calculateScore (utcClock 1725105600000) ⟨some 24⟩ []).score ≤ 484 :=
  ⟨rfl, (calculateScore_empty_window (utcClock 1725105600000) ⟨some 24⟩ [] rfl).2.2.2.2.2.2.1⟩

/-! ## Grade and risk tier -/

/-- C4: for every integer score, `calculateGrade` is the first match of the
descending breakpoint table: `"A+"` iff `score ≥ 800`, `"A"` iff
`750 ≤ score < 800`, `"B+"` iff `700 ≤ score < 750`, `"B"` iff `650 ≤ score < 700`,
`"C+"` iff `600 ≤ score < 650`, `"C"` iff `550 ≤ score < 600`, `"D"` iff
`score < 550`; each boundary pair 549/550, 599/600, 649/650, 699/700, 749/750,
799/800 gets two different grades. -/
theorem calculateGrade_table (score : ℤ) :
    (calculateGrade score = "A+" ↔ 800 ≤ score)
      ∧ (calculateGrade score = "A" ↔ 750 ≤ score ∧ score < 800)
      ∧ (calculateGrade score = "B+" ↔ 700 ≤ score ∧ score < 750)
      ∧ (calculateGrade score = "B" ↔ 650 ≤ score ∧ score < 700)
      ∧ (calculateGrade score = "C+" ↔ 600 ≤ score ∧ score < 650)
      ∧ (calculateGrade score = "C" ↔ 550 ≤ score ∧ score < 600)
      ∧ (calculateGrade score = "D" ↔ score < 550)
      ∧ calculateGrade 549 ≠ calculateGrade 550
      ∧ calculateGrade 599 ≠ calculateGrade 600
      ∧ calculateGrade 649 ≠ calculateGrade 650
      ∧ calculateGrade 699 ≠ calculateGrade 700
      ∧ calculateGrade 749 ≠ calculateGrade 750
      ∧ calculateGrade 799 ≠ calculateGrade 800 := by
  refine ⟨?_, ?_, ?_, ?_, ?_, ?_, ?_, by decide, by decide, by decide, by decide,
    by decide, by decide⟩ <;>
  · unfold calculateGrade
    split_ifs <;> simp <;> omega

/-- C5: the risk level returned by `calculateScore` is a function of the returned
score alone: `"Low"` iff `score ≥ 700`, `"Medium"` iff `600 ≤ score < 700`,
`"High"` iff `score < 600`. -/
theorem calculateScore_riskLevel (c : Clock) (user : User)
    (transactions : List Transaction) :
    ((calculateScore c user transactions).riskLevel = "Low"
        ↔ 700 ≤ (calculateScore c user transactions).score)
      ∧ ((calculateScore c user transactions).riskLevel = "Medium"
        ↔ 600 ≤ (calculateScore c user transactions).score
          ∧ (calculateScore c user transactions).score < 700)
      ∧ ((calculateScore c user transactions).riskLevel = "High"
        ↔ (calculateScore c user transactions).score < 600) := by
  have hr : (calculateScore c user transactions).riskLevel
      = riskLevel (calculateScore c user transactions).score := rfl
  rw [hr]
  generalize (calculateScore c user transactions).score = x
  refine ⟨?_, ?_, ?_⟩ <;>
  · unfold riskLevel
    split_ifs <;> simp <;> omega

/-! ## Recommendations -/

theorem generateRecommendations_eq (scores : Scores) (user : User)
    (transactions : List Transaction) :
    generateRecommendations scores user transactions = (ruleTips scores user).take 5 := by
  unfold generateRecommendations ruleTips
  dsimp only
  split_ifs <;> rfl

/-- C6: `generateRecommendations` returns exactly the first five entries (all of
them when there are fewer) of the list built by the fixed rule order; its length
never exceeds 5; and when `transaction`, `cashFlow` and `stability` are all below
70 the result is the two transaction tips, the two cash-flow tips and the first
stability tip, every later tip being dropped. -/
theorem generateRecommendations_first_five (scores : Scores) (user : User)
    (transactions : List Transaction) :
    generateRecommendations scores user transactions = (ruleTips scores user).take 5
      ∧ ((ruleTips scores user).length < 5 →
          generateRecommendations scores user transactions = ruleTips scores user)
      ∧ (generateRecommendations scores user transactions).length ≤ 5
      ∧ (scores.transaction < 70 → scores.cashFlow < 70 → scores.stability < 70 →
          generateRecommendations scores user transactions =
            ["Increase transaction frequency - aim for 30+ transactions monthly",
             "Diversify income sources across different categories",
             "Improve profit margins - aim for 30%+ income over expenses",
             "Maintain positive account balance consistently",
             "Build longer account history - consistency over 12+ months helps"]) := by
  have h := generateRecommendations_eq scores user transactions
  refine ⟨h, ?_, ?_, ?_⟩
  · intro hlen
    rw [h, List.take_of_length_le (le_of_lt hlen)]
  · rw [h, List.length_take]
    exact min_le_left _ _
  · intro ht hc hs
    rw [h]
    unfold ruleTips
    rw [if_pos ht, if_pos hc, if_pos hs]
    rfl

theorem generateRecommendations_first_five_witness :
    (ruleTips ⟨0, 30, 0, 100⟩ ⟨none⟩).length = 7
      ∧ generateRecommendations ⟨0, 30, 0, 100⟩ ⟨none⟩ [] =
        ["Increase transaction frequency - aim for 30+ transactions monthly",
         "Diversify income sources across different categories",
         "Improve profit margins - aim for 30%+ income over expenses",
         "Maintain positive account balance consistently",
         "Build longer account history - consistency over 12+ months helps"] :=
  ⟨by decide,
    (generateRecommendations_first_five ⟨0, 30, 0, 100⟩ ⟨none⟩ []).2.2.2
      (by decide) (by decide) (by decide)⟩

/-- C7: when the four component scores are all at least 70 and the account age
is at least 12 months, `generateRecommendations` returns the empty list. -/
theorem generateRecommendations_none (scores : Scores) (user : User)
    (transactions : List Transaction)
    (ht : 70 ≤ scores.transaction) (hc : 70 ≤ scores.cashFlow)
    (hs : 70 ≤ scores.stability) (hb : 70 ≤ scores.behavior)
    (ha : 12 ≤ orZero user.accountAge) :
    generateRecommendations scores user transactions = [] := by
  rw [generateRecommendations_eq]
  unfold ruleTips
  rw [if_neg (not_lt.mpr ht), if_neg (not_lt.mpr hc), if_neg (not_lt.mpr hs),
    if_neg (not_lt.mpr hb), if_neg (not_lt.mpr ha)]
  rfl

theorem generateRecommendations_none_witness :
    (12 : ℤ) ≤ orZero (User.mk (some 12)).accountAge
      ∧ generateRecommendations ⟨70, 100, 70, 85⟩ ⟨some 12⟩ [] = [] :=
  ⟨by decide, generateRecommendations_none ⟨70, 100, 70, 85⟩ ⟨some 12⟩ []
    (by decide) (by decide) (by decide) (by decide) (by decide)⟩

/-! ## Monotonicity of the final score -/

/-- C8: the final score is monotonically non-decreasing in the component scores:
if one component-score vector is pointwise `≤` another, then
`round(300 + (raw / 100) × 550)` of the first is `≤` that of the second, `raw`
being the weighted sum with weights 0.30, 0.35, 0.20, 0.15; the score returned by
`calculateScore` is this function of its breakdown. -/
theorem finalScore_mono (t₁ c₁ s₁ b₁ t₂ c₂ s₂ b₂ : ℚ)
    (ht : t₁ ≤ t₂) (hc : c₁ ≤ c₂) (hs : s₁ ≤ s₂) (hb : b₁ ≤ b₂) :
    finalScore (rawScore t₁ c₁ s₁ b₁) ≤ finalScore (rawScore t₂ c₂ s₂ b₂)
      ∧ ∀ (c : Clock) (user : User) (transactions : List Transaction),
          (calculateScore c user transactions).score =
            finalScore (rawScore (calculateScore c user transactions).breakdown.transaction
              (calculateScore c user transactions).breakdown.cashFlow
              (calculateScore c user transactions).breakdown.stability
              (calculateScore c user transactions).breakdown.behavior) := by
  refine ⟨?_, fun _ _ _ => rfl⟩
  unfold finalScore Math.round rawScore WEIGHTS
  apply Int.floor_mono
  dsimp only
  linarith

theorem finalScore_mono_witness :
    finalScore (rawScore 0 30 0 100) ≤ finalScore (rawScore 10 30 0 100) :=
  (finalScore_mono 0 30 0 100 10 30 0 100 (by norm_num) le_rfl le_rfl le_rfl).1

/-! ## The window filter -/

theorem sixMonthsAgo_end_of_august :
    sixMonthsAgo (utcClock 1725105600000) = 1709380800000 := by decide

theorem sixMonthsAgo_start_of_february :
    sixMonthsAgo (utcClock 1706745600000) = 1690848000000 := by decide

theorem latePayments_eq_zero (transactions : List Transaction) :
    (transactions.filter
      (fun t => t.category = "loan_repayment" && isLatePayment t)).length = 0 := by
  simp [isLatePayment]

/-- C10: `scoreBehavior` equals
`clamp(100 - overdraftPenalty - latePenalty + savingsBonus, 0, 100)`, where the
overdraft penalty is 30/15/5/0 for a count of `balance < 0` transactions that is
`> 5 / > 2 / > 0 / 0`, the late penalty is 0 because `isLatePayment` always reports
false, and the savings bonus is 30/15/0 for a count of savings-or-investment
transactions that is `≥ 10 / ≥ 5 /` otherwise; a list with exactly 1 overdraft and 3
savings transactions scores 95. -/
theorem scoreBehavior_eq_clamp (transactions : List Transaction) :
    scoreBehavior transactions =
        clamp (100
          - overdraftPenalty (transactions.countP (fun t => decide (t.balance < 0)))
          - 0
          + savingsBonus (transactions.countP
              (fun t => t.category = "savings" || t.category = "investment"))) 0 100
      ∧ (∀ t, isLatePayment t = false)
      ∧ transactions.countP
          (fun t => t.category = "loan_repayment" && isLatePayment t) = 0
      ∧ (transactions.countP (fun t => decide (t.balance < 0)) = 1 →
          transactions.countP
            (fun t => t.category = "savings" || t.category = "investment") = 3 →
          scoreBehavior transactions = 95) := by
  have hlate := latePayments_eq_zero transactions
  have hmain : scoreBehavior transactions =
      clamp (100
        - overdraftPenalty (transactions.countP (fun t => decide (t.balance < 0)))
        - 0
        + savingsBonus (transactions.countP
            (fun t => t.category = "savings" || t.category = "investment"))) 0 100 := by
    unfold scoreBehavior clamp overdraftPenalty savingsBonus
    lift_lets
    intro s0 overdrafts s1 latePayments s2 savingsTransactions s3
    have hl : latePayments = 0 := hlate
    have h2 : s2 = s1 := by simp only [s2, hl]; norm_num
    have ho : overdrafts = transactions.countP (fun t => decide (t.balance < 0)) :=
      (List.countP_eq_length_filter _ _).symm
    have hsv : savingsTransactions.length = transactions.countP
        (fun t => t.category = "savings" || t.category = "investment") :=
      (List.countP_eq_length_filter _ _).symm
    rw [← ho, ← hsv]
    simp only [s3, h2, s1, s0]
    split_ifs <;> norm_num
  refine ⟨hmain, fun _ => rfl, ?_, ?_⟩
  · rw [List.countP_eq_length_filter]
    exact hlate
  · intro h1 h3
    rw [hmain, h1, h3]
    decide

theorem scoreBehavior_eq_clamp_witness :
    scenarioC.countP (fun t => decide (t.balance < 0)) = 1
      ∧ scenarioC.countP (fun t => t.category = "savings" || t.category = "investment") = 3
      ∧ scoreBehavior scenarioC = 95 :=
  ⟨by simp [scenarioC, List.countP_cons], by simp [scenarioC, List.countP_cons],
    (scoreBehavior_eq_clamp scenarioC).2.2.2
      (by simp [scenarioC, List.countP_cons]) (by simp [scenarioC, List.countP_cons])⟩

/-! ## Soundness of the symbolic consistency test -/

theorem Consistency.ge_oneMinusSqrtOver_iff (v a θ : ℚ) (ha : 0 < a) :
    (Consistency.oneMinusSqrtOver v a).ge θ
      ↔ (θ : ℝ) ≤ 1 - Real.sqrt (v : ℝ) / (a : ℝ) := by
  have haR : (0 : ℝ) < (a : ℝ) := by exact_mod_cast ha
  unfold Consistency.ge
  rw [le_sub_comm, div_le_iff₀ haR, Real.sqrt_le_iff]
  constructor
  · rintro ⟨h1, h2⟩
    exact ⟨by exact_mod_cast h1, by exact_mod_cast h2⟩
  · rintro ⟨h1, h2⟩
    exact ⟨by exact_mod_cast h1, by exact_mod_cast h2⟩

/-! ## The weights -/

theorem scoreBehavior_ge_seventy (transactions : List Transaction) :
    70 ≤ scoreBehavior transactions := by
  unfold scoreBehavior
  lift_lets
  intro s0 overdrafts s1 latePayments s2 savingsTransactions s3
  have hl : latePayments = 0 := latePayments_eq_zero transactions
  have h0 : s0 = 100 := rfl
  clear_value s0
  have h1 : 70 ≤ s1 := by simp only [s1]; split_ifs <;> omega
  clear_value s1
  have h2 : s2 = s1 := by simp only [s2, hl]; norm_num
  clear_value s2
  have h3 : 70 ≤ s3 := by simp only [s3]; split_ifs <;> omega
  exact le_max_of_le_right (le_min h3 (by norm_num))

theorem not_mem_ruleTips_of_behavior (scores : Scores) (user : User) (tip : String)
    (hb : 70 ≤ scores.behavior)
    (htip : tip = "Avoid overdrafts and negative balances"
      ∨ tip = "Start saving 10-15% of monthly income") :
    tip ∉ ruleTips scores user := by
  unfold ruleTips
  rw [if_neg (not_lt.mpr hb)]
  rcases htip with h | h <;> subst h <;> split_ifs <;> decide

/-- C15: because `isLatePayment` always returns false, `scoreBehavior` returns a
value in `[70, 100]` for every transaction list; so the recommendations returned by
`calculateScore` never contain either behavior tip. -/
theorem calculateScore_no_behavior_tip (c : Clock) (user : User)
    (transactions : List Transaction) :
    (∀ t, isLatePayment t = false)
      ∧ (70 ≤ scoreBehavior transactions ∧ scoreBehavior transactions ≤ 100)
      ∧ "Avoid overdrafts and negative balances"
          ∉ (calculateScore c user transactions).recommendations
      ∧ "Start saving 10-15% of monthly income"
          ∉ (calculateScore c user transactions).recommendations := by
  have hrec : (calculateScore c user transactions).recommendations
      = (ruleTips (calculateScore c user transactions).breakdown user).take 5 :=
    generateRecommendations_eq _ _ (filterLast6Months c transactions)
  have hb : 70 ≤ (calculateScore c user transactions).breakdown.behavior :=
    scoreBehavior_ge_seventy (filterLast6Months c transactions)
  refine ⟨fun _ => rfl, ⟨scoreBehavior_ge_seventy _, (scoreBehavior_bounds _).2⟩, ?_, ?_⟩
  · rw [hrec]
    exact fun h => not_mem_ruleTips_of_behavior _ user _ hb (Or.inl rfl) (List.mem_of_mem_take h)
  · rw [hrec]
    exact fun h => not_mem_ruleTips_of_behavior _ user _ hb (Or.inr rfl) (List.mem_of_mem_take h)

/-! ## The transaction score as a sum of awards -/

theorem isoMonth_of_four_digit_year (d : ℤ) (h : 0 ≤ YearFromTime d ∧ YearFromTime d ≤ 9999) :
    isoMonth d = (YearFromTime d, MonthFromTime d + 1) := by
  unfold isoMonth
  dsimp only
  rw [if_pos h]

theorem isoMonth_evenLedger :
    evenLedger.map (fun t => isoMonth t.date) = [(2024, 7), (2024, 7), (2024, 8), (2024, 8)] := by
  decide

theorem mem_monthsInOrder (transactions : List Transaction) (k : ℤ × ℤ) :
    k ∈ monthsInOrder transactions ↔ ∃ t ∈ transactions, isoMonth t.date = k := by
  simp [monthsInOrder]

theorem nodup_monthsInOrder (transactions : List Transaction) :
    (monthsInOrder transactions).Nodup := by
  unfold monthsInOrder
  exact List.nodup_reverse.mpr (List.nodup_dedup _)

theorem monthsInOrder_append_singleton (l : List Transaction) (t : Transaction) :
    monthsInOrder (l ++ [t]) =
      if isoMonth t.date ∈ monthsInOrder l then monthsInOrder l
      else monthsInOrder l ++ [isoMonth t.date] := by
  have hmem : isoMonth t.date ∈ monthsInOrder l
      ↔ isoMonth t.date ∈ (l.map (fun t => isoMonth t.date)).reverse := by
    simp [monthsInOrder]
  unfold monthsInOrder at *
  rw [List.map_append, List.reverse_append, List.map_singleton, List.reverse_singleton,
    List.singleton_append]
  by_cases h : isoMonth t.date ∈ (l.map (fun t => isoMonth t.date)).reverse
  · rw [if_pos (hmem.mpr h), List.dedup_cons_of_mem h]
  · rw [if_neg (fun h2 => h (hmem.mp h2)), List.dedup_cons_of_not_mem h, List.reverse_cons]

theorem pushMonth_map (ks : List (ℤ × ℤ)) (hnd : ks.Nodup) (f : ℤ × ℤ → List Transaction)
    (k : ℤ × ℤ) (t : Transaction) :
    pushMonth k t (ks.map (fun j => (j, f j))) =
      if k ∈ ks then ks.map (fun j => (j, if j = k then f j ++ [t] else f j))
      else ks.map (fun j => (j, f j)) ++ [(k, [t])] := by
  induction ks with
  | nil => simp [pushMonth]
  | cons j ks ih =>
    have hj : j ∉ ks := (List.nodup_cons.mp hnd).1
    have hks : ks.Nodup := (List.nodup_cons.mp hnd).2
    rw [List.map_cons, pushMonth]
    by_cases hjk : j = k
    · subst hjk
      rw [if_pos rfl, if_pos (List.mem_cons_self _ _), List.map_cons, if_pos rfl]
      congr 1
      apply List.map_congr_left
      intro i hi
      have : i ≠ j := fun h => hj (h ▸ hi)
      rw [if_neg this]
    · rw [if_neg hjk, ih hks]
      by_cases hk : k ∈ ks
      · rw [if_pos hk, if_pos (List.mem_cons_of_mem _ hk), List.map_cons, if_neg hjk]
      · have hk2 : k ∉ j :: ks := by
          simp only [List.mem_cons, not_or]
          exact ⟨fun h => hjk h.symm, hk⟩
        rw [if_neg hk, if_neg hk2]
        rfl

theorem groupByMonth_eq (transactions : List Transaction) :
    groupByMonth transactions =
      (monthsInOrder transactions).map (fun k => (k, inMonth transactions k)) := by
  induction transactions using List.reverseRecOn with
  | nil => rfl
  | append_singleton l t ih =>
    have hstep : groupByMonth (l ++ [t]) = pushMonth (isoMonth t.date) t (groupByMonth l) := by
      unfold groupByMonth
      rw [List.foldl_append]
      rfl
    rw [hstep, ih, pushMonth_map _ (nodup_monthsInOrder l), monthsInOrder_append_singleton]
    by_cases hk : isoMonth t.date ∈ monthsInOrder l
    · rw [if_pos hk, if_pos hk]
      apply List.map_congr_left
      intro j _
      unfold inMonth
      rw [List.filter_append]
      by_cases hj : j = isoMonth t.date
      · subst hj
        simp
      · have hj2 : ¬ isoMonth t.date = j := fun h => hj h.symm
        simp [hj, hj2]
    · rw [if_neg hk, if_neg hk, List.map_append, List.map_singleton]
      congr 1
      · apply List.map_congr_left
        intro j hj
        have hj2 : ¬ isoMonth t.date = j := fun h => hk (h ▸ hj)
        unfold inMonth
        simp [hj2]
      · have hempty : inMonth l (isoMonth t.date) = [] := by
          unfold inMonth
          rw [List.filter_eq_nil_iff]
          intro u hu hdec
          exact hk ((mem_monthsInOrder l _).mpr ⟨u, hu, by simpa using hdec⟩)
        unfold inMonth at hempty ⊢
        rw [List.filter_append, hempty]
        simp

/-! ## The cash-flow score as a sum of awards -/

theorem foldl_add_of_forall_eq (counts : List ℕ) (m a : ℕ) (h : ∀ c ∈ counts, c = m) :
    counts.foldl (fun a b => a + b) a = a + counts.length * m := by
  induction counts generalizing a with
  | nil => simp
  | cons c counts ih =>
    have hc : c = m := h c (List.mem_cons_self _ _)
    rw [List.foldl_cons, ih _ (fun d hd => h d (List.mem_cons_of_mem _ hd)), hc,
      List.length_cons]
    ring

theorem foldl_sq_of_forall_eq (counts : List ℕ) (m : ℕ) (avg a : ℚ) (havg : avg = m)
    (h : ∀ c ∈ counts, c = m) :
    counts.foldl (fun (sum : ℚ) (c : ℕ) => sum + ((c : ℚ) - avg) ^ 2) a = a := by
  induction counts generalizing a with
  | nil => simp
  | cons c counts ih =>
    have hc : c = m := h c (List.mem_cons_self _ _)
    rw [List.foldl_cons, ih _ (fun d hd => h d (List.mem_cons_of_mem _ hd)), hc, havg]
    ring

theorem calculateConsistency_of_equal_counts {κ : Type}
    (monthlyData : List (κ × List Transaction)) (m : ℕ) (hne : monthlyData ≠ [])
    (hm : 0 < m) (h : ∀ p ∈ monthlyData, p.2.length = m) :
    calculateConsistency monthlyData = .oneMinusSqrtOver 0 m := by
  have hcounts : ∀ c ∈ (values monthlyData).map (fun arr => arr.length), c = m := by
    intro c hc
    simp only [values, List.map_map, List.mem_map, Function.comp_apply] at hc
    obtain ⟨p, hp, rfl⟩ := hc
    exact h p hp
  have hlen : ((values monthlyData).map (fun arr => arr.length)).length ≠ 0 := by
    simpa [values] using hne
  have hlenQ : ((((values monthlyData).map (fun arr => arr.length)).length : ℕ) : ℚ) ≠ 0 := by
    exact_mod_cast hlen
  have hmQ : (m : ℚ) ≠ 0 := by exact_mod_cast (Nat.pos_iff_ne_zero.mp hm)
  unfold calculateConsistency
  lift_lets
  intro counts avg variance
  rw [if_neg hlen]
  have havg : avg = m := by
    simp only [avg]
    rw [foldl_add_of_forall_eq _ m 0 hcounts, zero_add, Nat.cast_mul,
      mul_div_cancel_left₀ _ hlenQ]
  have hvar : variance = 0 := by
    simp only [variance]
    rw [foldl_sq_of_forall_eq _ m avg 0 havg hcounts]
    simp
  rw [hvar, havg, if_neg hmQ]

theorem calculateConsistency_groupByMonth_even (transactions : List Transaction)
    (t₀ : Transaction) (h₀ : t₀ ∈ transactions)
    (heven : ∀ t ∈ transactions, ∀ u ∈ transactions,
      transactions.countP (fun x => decide (isoMonth x.date = isoMonth t.date))
        = transactions.countP (fun x => decide (isoMonth x.date = isoMonth u.date))) :
    0 < transactions.countP (fun x => decide (isoMonth x.date = isoMonth t₀.date))
      ∧ calculateConsistency (groupByMonth transactions) =
        .oneMinusSqrtOver 0
          (transactions.countP (fun x => decide (isoMonth x.date = isoMonth t₀.date))) := by
  have hm : 0 < transactions.countP (fun x => decide (isoMonth x.date = isoMonth t₀.date)) :=
    List.countP_pos_iff.mpr ⟨t₀, h₀, by simp⟩
  refine ⟨hm, calculateConsistency_of_equal_counts _ _ ?_ hm ?_⟩
  · rw [groupByMonth_eq]
    intro hnil
    have hmem : isoMonth t₀.date ∈ monthsInOrder transactions :=
      (mem_monthsInOrder _ _).mpr ⟨t₀, h₀, rfl⟩
    rw [List.map_eq_nil_iff] at hnil
    rw [hnil] at hmem
    exact List.not_mem_nil _ hmem
  · rw [groupByMonth_eq]
    intro p hp
    obtain ⟨k, hk, rfl⟩ := List.mem_map.mp hp
    obtain ⟨u, hu, rfl⟩ := (mem_monthsInOrder _ _).mp hk
    show (inMonth transactions (isoMonth u.date)).length = _
    unfold inMonth
    rw [← List.countP_eq_length_filter]
    exact heven u hu t₀ h₀

/-- C12: for every user with account age `≥ 24` months and every non-empty
transaction list in which every month that occurs (month key `isoMonth` of the
date) holds the same number of transactions, a single month included,
`calculateConsistency` returns exactly 1 and `scoreStability` returns 100; for a map
with zero months `calculateConsistency` returns 0. -/
theorem scoreStability_even (user : User) (transactions : List Transaction)
    (hage : 24 ≤ orZero user.accountAge) (hne : transactions ≠ [])
    (heven : ∀ t ∈ transactions, ∀ u ∈ transactions,
      transactions.countP (fun x => decide (isoMonth x.date = isoMonth t.date))
        = transactions.countP (fun x => decide (isoMonth x.date = isoMonth u.date))) :
    (calculateConsistency (groupByMonth transactions)).denotes 1
      ∧ scoreStability user transactions = 100
      ∧ (∀ monthlyData : List ((ℤ × ℤ) × List Transaction), monthlyData.length = 0 →
          calculateConsistency monthlyData = .const 0
            ∧ (calculateConsistency monthlyData).denotes 0) := by
  obtain ⟨t₀, rest, rfl⟩ := List.exists_cons_of_ne_nil hne
  obtain ⟨hm, hcons⟩ :=
    calculateConsistency_groupByMonth_even (t₀ :: rest) t₀ (List.mem_cons_self _ _) heven
  have hmQ : (0 : ℚ) < ((t₀ :: rest).countP
      (fun x => decide (isoMonth x.date = isoMonth t₀.date)) : ℕ) := by
    exact_mod_cast hm
  refine ⟨?_, ?_, ?_⟩
  · rw [hcons]
    simp [Consistency.denotes]
  · unfold scoreStability
    lift_lets
    intro s0 s1 monthlyTransactions consistency s2
    have h1 : s1 = 40 := by simp only [s1, s0, if_pos hage]; norm_num
    have hge : consistency.ge (8 / 10) := by
      simp only [consistency, monthlyTransactions, hcons, Consistency.ge]
      constructor
      · nlinarith
      · positivity
    have h2 : s2 = 100 := by simp only [s2, if_pos hge, h1]; norm_num
    rw [h2]
    rfl
  · intro monthlyData hlen
    have hnil : monthlyData = [] := List.length_eq_zero.mp hlen
    subst hnil
    have h0 : calculateConsistency ([] : List ((ℤ × ℤ) × List Transaction)) = .const 0 := by
      simp [calculateConsistency, values]
    rw [h0]
    exact ⟨rfl, by simp [Consistency.denotes]⟩

theorem scoreStability_even_witness :
    evenLedger ≠ [] ∧ scoreStability ⟨some 24⟩ evenLedger = 100 :=
  ⟨by decide, (scoreStability_even ⟨some 24⟩ evenLedger (by decide) (by decide)
    (by decide)).2.1⟩

end ScoringEngine
